import Mathlib

/-!
Verification of the asyncorm core: field type system (asyncorm/models/fields.py),
query compiler and paginated cursor (asyncorm/database/db_manager.py).

Python values are modelled by the inductive `PyVal`; machine behaviour that raises
an exception other than FieldError (TypeError, AttributeError, KeyError) is modelled
by a dedicated error constructor or by `Option.none`, as noted at each definition.
The netaddr-backed field kinds (GenericIPAddressField, MACAdressField) delegate
their validation to the external netaddr library and are outside this embedding.
-/

namespace AsyncOrm

/-- Python runtime types relevant to the fields module. -/
inductive PyType where
  | noneT | boolT | intT | strT | listT | dictT | tupleT
  | floatT | datetimeT | dateT | timeT | decimalT | uuidT
deriving DecidableEq

/-- Python values as the fields module consumes them.  Instances of classes whose
internals the module never inspects (float, datetime, date, time, Decimal, UUID)
are carried opaquely with a tag so that distinct instances exist. -/
inductive PyVal where
  | none
  | bool (b : Bool)
  | int (n : Int)
  | str (s : String)
  | list (xs : List PyVal)
  | dict (xs : List (PyVal × PyVal))
  | tup (xs : List PyVal)
  | float (tag : Nat)
  | datetime (tag : Nat)
  | date (tag : Nat)
  | time (tag : Nat)
  | decimalv (tag : Nat)
  | uuid (tag : Nat)

mutual
/-- Python == on these values: structural equality plus the numeric cross-type
rule that a bool equals the int of its numeric value (True == 1).  Dict equality
in Python ignores entry order; entry-ordered comparison is used here since no
claim compares dicts. -/
def pyEq : PyVal → PyVal → Bool
  | .none, .none => true
  | .bool a, .bool b => a == b
  | .bool a, .int b => (if a then (1 : Int) else 0) == b
  | .int a, .bool b => a == (if b then (1 : Int) else 0)
  | .int a, .int b => a == b
  | .str a, .str b => a == b
  | .list as, .list bs => pyEqL as bs
  | .tup as, .tup bs => pyEqL as bs
  | .dict as, .dict bs => pyEqP as bs
  | .float a, .float b => a == b
  | .datetime a, .datetime b => a == b
  | .date a, .date b => a == b
  | .time a, .time b => a == b
  | .decimalv a, .decimalv b => a == b
  | .uuid a, .uuid b => a == b
  | _, _ => false

def pyEqL : List PyVal → List PyVal → Bool
  | [], [] => true
  | x :: xs, y :: ys => pyEq x y && pyEqL xs ys
  | _, _ => false

def pyEqP : List (PyVal × PyVal) → List (PyVal × PyVal) → Bool
  | [], [] => true
  | (k1, v1) :: xs, (k2, v2) :: ys => pyEq k1 k2 && pyEq v1 v2 && pyEqP xs ys
  | _, _ => false
end

/-- The runtime type of a value, as Python type(v) reports it. -/
def pyType : PyVal → PyType
  | .none => .noneT
  | .bool _ => .boolT
  | .int _ => .intT
  | .str _ => .strT
  | .list _ => .listT
  | .dict _ => .dictT
  | .tup _ => .tupleT
  | .float _ => .floatT
  | .datetime _ => .datetimeT
  | .date _ => .dateT
  | .time _ => .timeT
  | .decimalv _ => .decimalT
  | .uuid _ => .uuidT

/-- Python isinstance for these types: exact type match, plus the two standard
subclass relations bool <= int and datetime <= date. -/
def isinst (v : PyVal) (t : PyType) : Bool :=
  decide (pyType v = t)
  || (decide (pyType v = .boolT) && decide (t = .intT))
  || (decide (pyType v = .datetimeT) && decide (t = .dateT))

/-- Python truthiness.  The opaque instance kinds are always-truthy in Python with
the exception of zero Decimals and midnight times on old interpreters; those
corners are not exercised by any claim and the opaque kinds are taken truthy. -/
def PyVal.truthy : PyVal → Bool
  | .none => false
  | .bool b => b
  | .int n => decide (n ≠ 0)
  | .str s => decide (s ≠ "")
  | .list xs => !xs.isEmpty
  | .dict xs => !xs.isEmpty
  | .tup xs => !xs.isEmpty
  | _ => true

/-- Python len(); values without a length raise TypeError, modelled as none. -/
def pyLen : PyVal → Option Nat
  | .str s => some s.length
  | .list xs => some xs.length
  | .dict xs => some xs.length
  | .tup xs => some xs.length
  | _ => Option.none

/-- Python str() for the value kinds the module formats into SQL text; container
and opaque instance kinds have textual forms this embedding does not need (no
claim formats one), rendered with a fixed placeholder. -/
def pyStr : PyVal → String
  | .none => "None"
  | .bool b => if b then "True" else "False"
  | .int n => toString n
  | .str s => s
  | .list _ => "<list>"
  | .dict _ => "<dict>"
  | .tup _ => "<tuple>"
  | _ => "<object>"

/-- The field classes of asyncorm/models/fields.py whose behaviour is defined in
pure Python.  GenericIPAddressField and MACAdressField validate through the
external netaddr library and are not embedded. -/
inductive Kind where
  | booleanField | charField | emailField | textField
  | integerField | bigIntegerField | floatField | decimalField
  | autoField | bigAutoField
  | dateTimeField | dateField | timeField
  | foreignKey | manyToMany | jsonField | uuid4Field | arrayField
deriving DecidableEq

/-- The class name, as used in error messages and the DATE_FIELDS check. -/
def className : Kind → String
  | .booleanField => "BooleanField"
  | .charField => "CharField"
  | .emailField => "EmailField"
  | .textField => "TextField"
  | .integerField => "IntegerField"
  | .bigIntegerField => "BigIntegerField"
  | .floatField => "FloatField"
  | .decimalField => "DecimalField"
  | .autoField => "AutoField"
  | .bigAutoField => "BigAutoField"
  | .dateTimeField => "DateTimeField"
  | .dateField => "DateField"
  | .timeField => "TimeField"
  | .foreignKey => "ForeignKey"
  | .manyToMany => "ManyToManyField"
  | .jsonField => "JsonField"
  | .uuid4Field => "Uuid4Field"
  | .arrayField => "ArrayField"

/-- isinstance(value, internal_type) for each class: the internal_type is a
single type or a tuple of types, exactly as declared in the source. -/
def internalTypeMatch (k : Kind) (v : PyVal) : Bool :=
  match k with
  | .booleanField => isinst v .boolT
  | .charField | .emailField | .textField => isinst v .strT
  | .integerField | .bigIntegerField | .autoField | .bigAutoField => isinst v .intT
  | .floatField => isinst v .floatT
  | .decimalField => isinst v .decimalT || isinst v .floatT || isinst v .intT
  | .dateTimeField => isinst v .datetimeT
  | .dateField => isinst v .dateT
  | .timeField => isinst v .timeT
  | .foreignKey => isinst v .intT
  | .manyToMany => isinst v .listT || isinst v .intT
  | .jsonField => isinst v .dictT || isinst v .listT || isinst v .strT
  | .uuid4Field => isinst v .uuidT
  | .arrayField => isinst v .listT

/-- A field default: either a plain value, or a zero-argument callable which is
modelled by the value it returns (callable(default) is true exactly for the
second form). -/
inductive Dflt where
  | val (v : PyVal)
  | producer (ret : PyVal)

/-- callable defaults are invoked, plain defaults used as-is. -/
def resolveDflt : Dflt → PyVal
  | .val v => v
  | .producer r => r

/-- A constructed field: the attributes that __init__ stores via setattr.  The
`choices` attribute keeps only the keys of the choices mapping, which is all
validate consumes; fields whose classes never pass `choices` / `auto_now` keep
the defaults none / false, matching the missing attribute never being read.
`own_model` is set on ManyToMany fields by the model layer before DDL is
asked for. -/
structure FieldSpec where
  kind : Kind
  db_column : String := ""
  null : Bool := false
  unique : Bool := false
  db_index : Bool := false
  auto_now : Bool := false
  choices : Option (List PyVal) := Option.none
  default : Option Dflt := Option.none
  max_length : Int := 0
  max_digits : Int := 10
  decimal_places : Int := 2
  foreign_key : String := ""
  value_type : String := "text"
  uuid_type : String := "v4"
  own_model : String := ""

/-- Outcome of validate(): success, a raised FieldError with its message, or a
non-FieldError exception (TypeError / AttributeError). -/
inductive VRes where
  | ok
  | fieldError (msg : String)
  | typeError
deriving DecidableEq

/-- Whether a value is Python None. -/
def PyVal.isNone : PyVal → Bool
  | .none => true
  | _ => false

/-- Field.validate (fields.py lines 101-115): reject None on NOT NULL fields,
then values outside a declared choices mapping, then values of the wrong
runtime type. -/
def Field.validate (f : FieldSpec) (value : PyVal) : VRes :=
  if value.isNone ∧ f.null = false then
    .fieldError "null value in NOT NULL field"
  else if (match f.choices with
           | some ks => !ks.any (fun k => pyEq value k)
           | Option.none => false) then
    .fieldError ("\"" ++ pyStr value ++ "\" not in model choices")
  else if value.isNone = false ∧ internalTypeMatch f.kind value = false then
    .fieldError (pyStr value ++ " is a wrong datatype for field " ++ className f.kind)
  else
    .ok

/-- ArrayField.homogeneous_type (fields.py lines 436-440): the type of the first
element if every later element is an instance of it, otherwise False (none).
next() on an empty iterator would raise StopIteration; the only call site
guards with a truthiness check, so the list is never empty there. -/
def homogeneous_type (value : List PyVal) : Option PyType :=
  match value with
  | [] => Option.none
  | x :: rest =>
    let first_type := pyType x
    if rest.all (fun y => isinst y first_type) then some first_type else Option.none

/-- ArrayField.validate (fields.py lines 425-434). -/
def ArrayField.validate (f : FieldSpec) (value : PyVal) : VRes :=
  match Field.validate f value with
  | .ok =>
    if value.truthy then
      match value with
      | .list xs =>
        (match homogeneous_type xs with
         | Option.none => .fieldError "Array elements are not of the same type"
         | some items_type =>
           match xs with
           | [] => .ok
           | x0 :: _ =>
             if items_type = .listT then
               (if xs.all (fun item => pyLen item = pyLen x0) then .ok
                else .fieldError "Multi-dimensional arrays must have items of the same size")
             else .ok)
      | _ => .ok
    else .ok
  | e => e

/-- Base validate for ManyToMany elements: the class never receives a `null`
attribute, so the None branch reads a missing attribute and raises
AttributeError (modelled as typeError); for any other value the null check
short-circuits and base validation proceeds. -/
def m2mElemValidate (f : FieldSpec) (value : PyVal) : VRes :=
  if value.isNone then .typeError
  else Field.validate f value

/-- ManyToManyField.validate (fields.py lines 340-345): lists are validated
element by element, anything else as a single value. -/
def ManyToManyField.validate (f : FieldSpec) (value : PyVal) : VRes :=
  match value with
  | .list xs => xs.foldl (fun acc i => match acc with
      | .ok => m2mElemValidate f i
      | e => e) .ok
  | v => m2mElemValidate f v

/-- Dispatch of the virtual validate call.  EmailField.validate (lines 198-203)
runs the base checks and then matches the email regex against the value;
matching the regex against a non-string (None included) raises TypeError.  The
regex itself involves backtracking-free scanning over unicode word characters
and is abstracted as the parameter `er`; no theorem depends on it. -/
def validateK (er : String → Bool) (f : FieldSpec) (value : PyVal) : VRes :=
  match f.kind with
  | .emailField =>
    (match Field.validate f value with
     | .ok =>
       (match value with
        | .str s => if er s then .ok
                    else .fieldError ("\"" ++ s ++ "\" not a valid email address")
        | _ => .typeError)
     | e => e)
  | .arrayField => ArrayField.validate f value
  | .manyToMany => ManyToManyField.validate f value
  | _ => Field.validate f value

/-- Outcome of sanitize_data(): the produced value, a raised FieldError, or a
non-FieldError exception (TypeError). -/
inductive SanResult where
  | ok (v : PyVal)
  | fieldError (msg : String)
  | typeError

/-- Field.sanitize_data (fields.py lines 121-124): validate, then return the
value unchanged.  The validate call is virtual, hence dispatched through
validateK. -/
def Field.sanitize_data (er : String → Bool) (f : FieldSpec) (value : PyVal) : SanResult :=
  match validateK er f value with
  | .ok => .ok value
  | .fieldError m => .fieldError m
  | .typeError => .typeError

/-- Whether p occurs at the start of l. -/
def isPre : List Char → List Char → Bool
  | [], _ => true
  | _ :: _, [] => false
  | p :: ps, c :: cs => p == c && isPre ps cs

/-- Whether p occurs as a contiguous substring of l (Python "p in l"). -/
def containsSub (p : List Char) : List Char → Bool
  | [] => isPre p []
  | c :: cs => isPre p (c :: cs) || containsSub p cs

/-- str.replace for the two-character pattern backslash-semicolon, replaced by a
semicolon: the left-to-right, non-overlapping scan Python performs. -/
def replaceSemi : List Char → List Char
  | [] => []
  | [c] => [c]
  | c1 :: c2 :: rest =>
    if c1 = '\\' ∧ c2 = ';' then ';' :: replaceSemi rest
    else c1 :: replaceSemi (c2 :: rest)

/-- str.replace for the three-character pattern backslash-dash-dash, replaced by
the two dashes. -/
def replaceDashes : List Char → List Char
  | [] => []
  | [c] => [c]
  | [c1, c2] => [c1, c2]
  | c1 :: c2 :: c3 :: rest =>
    if c1 = '\\' ∧ c2 = '-' ∧ c3 = '-' then '-' :: '-' :: replaceDashes rest
    else c1 :: replaceDashes (c2 :: c3 :: rest)

/-- CharField.recompose (fields.py lines 183-187): on a non-None value, undo the
escape of ";" and "--"; calling .replace on a non-string raises AttributeError
(modelled as none). -/
def CharField.recompose (value : PyVal) : Option PyVal :=
  match value with
  | .none => some PyVal.none
  | .str s => some (.str (String.mk (replaceDashes (replaceSemi s.data))))
  | _ => Option.none

/-- CharField.sanitize_data (fields.py lines 189-194): base sanitize, then the
max_length ceiling on len(value) — len of None raises TypeError even when the
base validate accepted the None of a nullable field — then str(value). -/
def CharField.sanitize_data (er : String → Bool) (f : FieldSpec) (value : PyVal) : SanResult :=
  match Field.sanitize_data er f value with
  | .ok v =>
    (match pyLen v with
     | Option.none => .typeError
     | some n =>
       if (n : Int) > f.max_length then
         .fieldError ("The string entered is bigger than the \"max_length\" defined ("
           ++ toString f.max_length ++ ")")
       else .ok (.str (pyStr v)))
  | .fieldError m => .fieldError m
  | .typeError => .typeError

/-- BooleanField.sanitize_data (fields.py lines 156-160). -/
def BooleanField.sanitize_data (value : PyVal) : SanResult :=
  if isinst value .boolT || value.isNone then .ok value
  else .fieldError "not correct data for BooleanField"

/-- JsonField.sanitize_data (fields.py lines 367-382): validate; a non-None
value is parsed when a string (json.loads failure raising the FieldError) and
re-serialized with json.dumps; the max_length ceiling is applied to len of the
result, which for a None value means len(None) and a TypeError.  The json codec
lives outside this module and is passed in as `loads` / `dumps`. -/
def JsonField.sanitize_data (er : String → Bool) (loads : String → Option PyVal)
    (dumps : PyVal → String) (f : FieldSpec) (value : PyVal) : SanResult :=
  match validateK er f value with
  | .ok =>
    (match (match value with
            | .none => some PyVal.none
            | .str s => (loads s).map (fun parsed => PyVal.str (dumps parsed))
            | v => some (.str (dumps v))) with
     | Option.none => .fieldError "The data entered can not be converted to json"
     | some w =>
       (match pyLen w with
        | Option.none => .typeError
        | some n =>
          if (n : Int) > f.max_length then
            .fieldError ("The string entered is bigger than the \"max_length\" defined ("
              ++ toString f.max_length ++ ")")
          else .ok w))
  | .fieldError m => .fieldError m
  | .typeError => .typeError

/-- Characters of the Uuid4Field character class [a-zA-Z0-9 dash backspace]. -/
def uuidChar (c : Char) : Bool :=
  (decide ('a' ≤ c) && decide (c ≤ 'z')) || (decide ('A' ≤ c) && decide (c ≤ 'Z'))
  || (decide ('0' ≤ c) && decide (c ≤ '9')) || c == '-' || c == '\x08'

/-- re.match of the anchored 36-character class pattern used by Uuid4Field: an
exact 36-character match, or — because a dollar anchor in Python also matches
just before a single trailing newline — 36 class characters followed by one
final newline. -/
def uuidMatch (s : String) : Bool :=
  (decide (s.length = 36) && s.data.all uuidChar)
  || (decide (s.length = 37) && (s.data.take 36).all uuidChar
      && (s.data.getLast? == some '\n'))

/-- Uuid4Field.sanitize_data (fields.py lines 407-411); re.match against a
non-string raises TypeError. -/
def Uuid4Field.sanitize_data (value : PyVal) : SanResult :=
  match value with
  | .str s =>
    if uuidMatch s then .ok (.str s)
    else .fieldError "The expresion doesn\x27t validate as a correct Uuid4Field"
  | _ => .typeError

/-- Dispatch of the virtual sanitize_data call per class. -/
def sanitizeK (er : String → Bool) (loads : String → Option PyVal)
    (dumps : PyVal → String) (f : FieldSpec) (value : PyVal) : SanResult :=
  match f.kind with
  | .booleanField => BooleanField.sanitize_data value
  | .charField | .emailField => CharField.sanitize_data er f value
  | .jsonField => JsonField.sanitize_data er loads dumps f value
  | .uuid4Field => Uuid4Field.sanitize_data value
  | _ => Field.sanitize_data er f value

/-- Lookup in an insertion-ordered association list (a Python dict). -/
def alookup {α : Type} : List (String × α) → String → Option α
  | [], _ => Option.none
  | (k2, v) :: rest, k => if k2 = k then some v else alookup rest k

/-- dict[k] = v on an insertion-ordered association list: replace in place when
the key exists, append otherwise. -/
def aset {α : Type} : List (String × α) → String → α → List (String × α)
  | [], k, v => [(k, v)]
  | (k2, w) :: rest, k, v =>
    if k2 = k then (k2, v) :: rest else (k2, w) :: aset rest k v

/-- The declared parameter types of the KWARGS_TYPES table (fields.py 16-34). -/
inductive KwTy where
  | tyBool | tyStr | tyInt | tyDictOrTuple | tyObject

/-- KWARGS_TYPES; an unlisted keyword would raise KeyError at the lookup. -/
def KWARGS_TYPES : String → Option KwTy
  | "auto_now" => some .tyBool
  | "choices" => some .tyDictOrTuple
  | "db_column" => some .tyStr
  | "db_index" => some .tyBool
  | "decimal_places" => some .tyInt
  | "default" => some .tyObject
  | "dialect" => some .tyStr
  | "foreign_key" => some .tyStr
  | "max_digits" => some .tyInt
  | "max_length" => some .tyInt
  | "null" => some .tyBool
  | "protocol" => some .tyStr
  | "reverse_field" => some .tyStr
  | "strftime" => some .tyStr
  | "unpack_protocol" => some .tyStr
  | "unique" => some .tyBool
  | "uuid_type" => some .tyStr
  | _ => Option.none

/-- isinstance against a KWARGS_TYPES entry; `int` admits bools because bool is
a subclass of int in Python, and `object` admits everything. -/
def matchesTy (v : PyVal) : KwTy → Bool
  | .tyBool => isinst v .boolT
  | .tyStr => isinst v .strT
  | .tyInt => isinst v .intT
  | .tyDictOrTuple => isinst v .dictT || isinst v .tupleT
  | .tyObject => true

/-- The required_kwargs class attribute per class. -/
def required_kwargs : Kind → List String
  | .charField | .emailField | .jsonField => ["max_length"]
  | .foreignKey | .manyToMany => ["foreign_key"]
  | _ => []

/-- Field.set_field_name (fields.py lines 138-145): the naming checks, returning
the FieldError message when one is raised. -/
def set_field_name (db_column : String) : Option String :=
  if containsSub ['_', '_'] db_column.data then
    some "db_column can not contain \"__\""
  else if isPre ['_'] db_column.data then
    some "db_column can not start with \"_\""
  else if db_column.data.getLast? = some '_' then
    some "db_column can not end with \"_\""
  else Option.none

/-- The per-parameter check of the second validate_kwargs loop: a parameter is
rejected when it is not an instance of its declared type, unless it is a None
choices value. -/
def kwargMismatch (p : String × PyVal) : Bool :=
  let null_choices := p.2.isNone && (p.1 == "choices")
  (match KWARGS_TYPES p.1 with
   | some t => !matchesTy p.2 t
   | Option.none => true) && !null_choices

/-- Field.validate_kwargs (fields.py lines 88-99): required parameters must be
present and truthy; every parameter must be an instance of its declared type
(None allowed for choices); a truthy db_column must satisfy the naming rules.
Returns the message of the first error raised, none when construction passes.
An unknown keyword raises KeyError in Python; it is reported as an error here
(message "Wrong value for ..."), and no claim supplies unknown keywords. -/
def validate_kwargs (k : Kind) (kwargs : List (String × PyVal)) : Option String :=
  match (required_kwargs k).find? (fun kw => !((alookup kwargs kw).getD PyVal.none).truthy) with
  | some kw => some ("\"" ++ className k ++ "\" field requires " ++ kw)
  | Option.none =>
    match kwargs.find? kwargMismatch with
    | some p => some ("Wrong value for " ++ p.1)
    | Option.none =>
      match (alookup kwargs "db_column").getD (PyVal.str "") with
      | .str s => if s ≠ "" then set_field_name s else Option.none
      | _ => Option.none

/-- CharField.__init__ (fields.py lines 169-181): the kwargs dict handed to
validate_kwargs, keywords in the order of the super().__init__ call.  A caller
omitting a parameter supplies the signature default (max_length omitted is 0,
which the required check treats as missing).  Only the error behaviour of
construction is modelled. -/
def CharField.init (choices db_column db_index default max_length null unique : PyVal) :
    Option String :=
  validate_kwargs .charField
    [("choices", choices), ("db_column", db_column), ("db_index", db_index),
     ("default", default), ("max_length", max_length), ("null", null), ("unique", unique)]

/-- EmailField inherits CharField.__init__. -/
def EmailField.init (choices db_column db_index default max_length null unique : PyVal) :
    Option String :=
  validate_kwargs .emailField
    [("choices", choices), ("db_column", db_column), ("db_index", db_index),
     ("default", default), ("max_length", max_length), ("null", null), ("unique", unique)]

/-- JsonField.__init__ (fields.py lines 356-361). -/
def JsonField.init (choices db_column db_index default max_length null unique : PyVal) :
    Option String :=
  validate_kwargs .jsonField
    [("choices", choices), ("db_column", db_column), ("db_index", db_index),
     ("default", default), ("max_length", max_length), ("null", null), ("unique", unique)]

/-- ForeignKey.__init__ (fields.py lines 318-321); foreign_key omitted is "". -/
def ForeignKey.init (db_column db_index default foreign_key null unique : PyVal) :
    Option String :=
  validate_kwargs .foreignKey
    [("db_column", db_column), ("db_index", db_index), ("default", default),
     ("foreign_key", foreign_key), ("null", null), ("unique", unique)]

/-- ManyToManyField.__init__ (fields.py lines 333-335); foreign_key omitted is
None. -/
def ManyToManyField.init (db_column db_index default foreign_key unique : PyVal) :
    Option String :=
  validate_kwargs .manyToMany
    [("db_column", db_column), ("db_index", db_index), ("default", default),
     ("foreign_key", foreign_key), ("unique", unique)]

/-- Whether a string contains no brace character, so that str.format passes it
through verbatim. -/
def noBrace (s : String) : Bool :=
  s.data.all (fun c => !(c == '\x7b' || c == '\x7d'))

/-- One scanning pass of str.format over a template: outside a replacement field
(state none) characters are copied and an opening brace enters key state; inside
a key (state some acc) characters accumulate until the closing brace, where the
looked-up value is spliced in without rescanning.  A lone closing brace, an
unterminated field and a failed lookup (KeyError) are errors; the doubled-brace
escapes are not modelled (no template and no hypothesis-satisfying input uses
them). -/
def pfaGo (look : String → Option String) : Option (List Char) → List Char → Option (List Char)
  | Option.none, [] => some []
  | some _, [] => Option.none
  | Option.none, c :: rest =>
    if c = '\x7b' then pfaGo look (some []) rest
    else if c = '\x7d' then Option.none
    else (pfaGo look Option.none rest).map (fun t => c :: t)
  | some acc, c :: rest =>
    if c = '\x7d' then
      (match look (String.mk acc.reverse) with
       | Option.none => Option.none
       | some v => (pfaGo look Option.none rest).map (fun t => v.data ++ t))
    else if c = '\x7b' then Option.none
    else pfaGo look (some (c :: acc)) rest

/-- Python str.format(**mapping) restricted to plain {name} fields. -/
def pyFormat (look : String → Option String) (s : String) : Option String :=
  (pfaGo look Option.none s.data).map String.mk

/-- The attributes of a field as str.format reads them out of __dict__, each
rendered through str(); the keys no creation template mentions are omitted
(format would raise KeyError on them, and none is reachable). -/
def fieldLookup (f : FieldSpec) : String → Option String
  | "db_column" => some f.db_column
  | "max_length" => some (toString f.max_length)
  | "max_digits" => some (toString f.max_digits)
  | "decimal_places" => some (toString f.decimal_places)
  | "foreign_key" => some f.foreign_key
  | "value_type" => some f.value_type
  | "own_model" => some f.own_model
  | "null" => some (pyStr (.bool f.null))
  | "unique" => some (pyStr (.bool f.unique))
  | "db_index" => some (pyStr (.bool f.db_index))
  | "auto_now" => some (pyStr (.bool f.auto_now))
  | _ => Option.none

/-- The creation_string class attribute (or property, for Uuid4Field) of each
single-column class, with its format placeholders still in place.  An
unrecognized uuid_type raises KeyError in the property (none); ManyToMany is
handled by its own creation_query override below. -/
def kindCreationString (f : FieldSpec) : Option String :=
  match f.kind with
  | .booleanField => some "boolean"
  | .charField | .emailField => some "varchar({max_length})"
  | .textField => some "text"
  | .integerField => some "integer"
  | .bigIntegerField => some "bigint"
  | .floatField => some "double precision"
  | .decimalField => some "decimal({max_digits},{decimal_places})"
  | .autoField | .bigAutoField => some "serial PRIMARY KEY"
  | .dateTimeField => some "timestamp"
  | .dateField => some "date"
  | .timeField => some "time"
  | .foreignKey => some "integer references {foreign_key}"
  | .jsonField => some "JSON"
  | .uuid4Field =>
    if f.uuid_type = "v1" then some "UUID DEFAULT uuid_generate_v1mc()"
    else if f.uuid_type = "v4" then some "UUID DEFAULT uuid_generate_v4()"
    else Option.none
  | .arrayField => some "{value_type} ARRAY"
  | .manyToMany => Option.none

/-- The DEFAULT chunk Field.creation_query appends (fields.py lines 67-81):
with a default set, the callable is invoked, a string result is single-quoted,
a bool goes through str(), anything else through the virtual sanitize_data —
whose FieldError propagates out of creation_query (none).  With no default, a
DateField or DateTimeField with auto_now gets now(); TimeField is not in
DATE_FIELDS, so its auto_now is ignored here. -/
def defaultInsert (er : String → Bool) (loads : String → Option PyVal)
    (dumps : PyVal → String) (f : FieldSpec) : Option String :=
  match f.default with
  | some d =>
    let default_value := resolveDflt d
    if pyType default_value = .strT then
      some (" DEFAULT \x27" ++ pyStr default_value ++ "\x27")
    else if pyType default_value = .boolT then
      some (" DEFAULT " ++ pyStr default_value)
    else
      (match sanitizeK er loads dumps f default_value with
       | .ok w => some (" DEFAULT " ++ pyStr w)
       | _ => Option.none)
  | Option.none =>
    if (f.kind = .dateField ∨ f.kind = .dateTimeField) ∧ f.auto_now = true then
      some " DEFAULT now()"
    else some ""

/-- Field.creation_query (fields.py lines 63-86): build the template
"{db_column} " + creation_string, append the default chunk, " UNIQUE" when
unique, " NULL" or " NOT NULL", and only then run str.format over the whole
string against the field attributes. -/
def creation_query (er : String → Bool) (loads : String → Option PyVal)
    (dumps : PyVal → String) (f : FieldSpec) : Option String :=
  (kindCreationString f).bind fun cs =>
    (defaultInsert er loads dumps f).bind fun dc =>
      pyFormat (fieldLookup f)
        ("\x7bdb_column\x7d " ++ cs ++ dc
          ++ (if f.unique then " UNIQUE" else "")
          ++ (if f.null then " NULL" else " NOT NULL"))

/-- ManyToManyField.creation_query (fields.py lines 337-338): just the
two-column link-table creation_string, formatted — no column-name prefix, no
DEFAULT / UNIQUE / NULL handling. -/
def ManyToManyField.creation_query (f : FieldSpec) : Option String :=
  pyFormat (fieldLookup f)
    "\n        {own_model} INTEGER REFERENCES {own_model} NOT NULL,\n        {foreign_key} INTEGER REFERENCES {foreign_key} NOT NULL\n    "

/-- A value stored in a query-operation dict: the compiler reads strings and,
for the ordering entry, lists of strings. -/
inductive DVal where
  | s (v : String)
  | ls (v : List String)
deriving DecidableEq

/-- Python truthiness of a dict value. -/
def DVal.truthy : DVal → Bool
  | .s v => v != ""
  | .ls l => !l.isEmpty

/-- str() of a dict value, as str.format and string joins render it; a list
renders as its Python display form. -/
def DVal.asStr : DVal → String
  | .s v => v
  | .ls l => "[" ++ String.intercalate ", " (l.map (fun x => "\x27" ++ x ++ "\x27")) ++ "]"

/-- A query-operation record: an insertion-ordered string-keyed dict. -/
abbrev Dict := List (String × DVal)

/-- GeneralManager.query_clean (db_manager.py lines 131-134). -/
def query_clean (query : String) : String :=
  query ++ ";"

/-- GeneralManager.ordering_syntax (db_manager.py lines 136-146).  The argument
is whatever the dict holds under "ordering": a list of column names on the
first compilation, but a string if a previous compilation already replaced it —
iterating a string yields its one-character substrings. -/
def ordering_syntax (ordering : DVal) : String :=
  match ordering with
  | .ls fs =>
    if fs.isEmpty then ""
    else "ORDER BY " ++ String.intercalate ","
      (fs.map (fun f => match f.data with
        | '-' :: tail => " " ++ String.mk tail ++ " DESC "
        | _ => f))
  | .s s =>
    if s = "" then ""
    else "ORDER BY " ++ String.intercalate ","
      (s.data.map (fun c => if c = '-' then "  DESC " else String.mk [c]))

/-- Lines 166-172 of construct_query: ordering is synthesized only when the
select clause is exactly "*", and is overwritten with the empty string for any
other select clause. -/
def assign_ordering (res_dict : Dict) : Dict :=
  if (alookup res_dict "select").getD (.s "") = DVal.s "*" then
    aset res_dict "ordering"
      (.s ( ordering_syntax ((alookup res_dict "ordering").getD (.ls []))))
  else
    aset res_dict "ordering" (.s "")

/-- The db__* template properties of GeneralManager (db_manager.py lines
54-129), transcribed byte for byte; db__select and db__table_alter_column are
written out as the str.replace in the source produces them.  getattr on any
other action name raises AttributeError (none). -/
def template : String → Option String
  | "db__create_table" =>
    some "\n            CREATE TABLE IF NOT EXISTS {table_name}\n            ({field_queries}) "
  | "db__drop_table" => some "DROP TABLE IF EXISTS {table_name} CASCADE"
  | "db__alter_table" =>
    some "\n            ALTER TABLE {table_name} ({field_queries}) "
  | "db__constrain_table" =>
    some "\n            ALTER TABLE {table_name} ADD {constrain} "
  | "db__table_add_column" =>
    some "\n            ALTER TABLE {table_name}\n            ADD COLUMN {field_creation_string} "
  | "db__table_alter_column" =>
    some "\n            ALTER TABLE {table_name}\n            ALTER COLUMN {field_creation_string} "
  | "db__insert" =>
    some "\n            INSERT INTO {table_name} ({field_names}) VALUES ({field_values})\n            RETURNING *\n        "
  | "db__select_all" => some "SELECT {select} FROM {table_name} {ordering}"
  | "db__select" => some "SELECT {select} FROM {table_name} WHERE ( {condition} ) {ordering}"
  | "db__where" => some "WHERE {condition} "
  | "db__select_m2m" =>
    some "\n            SELECT {select} FROM {other_tablename}\n            WHERE {otherdb_pk} = ANY (\n                SELECT {other_tablename} FROM {m2m_tablename} WHERE {id_data}\n            )\n        "
  | "db__update" =>
    some "\n            UPDATE ONLY {table_name}\n            SET ({field_names}) = ({field_values})\n            WHERE {id_data}\n            RETURNING *\n        "
  | "db__delete" => some "DELETE FROM {table_name} WHERE {id_data} "
  | _ => Option.none

/-- GeneralManager.construct_query (db_manager.py lines 148-177).  The source
copies the chain list but pops the first dict out of the copy, so res_dict
aliases the first operation record and the update calls mutate it in place: the
returned chain carries the mutated head.  A where operation whose dict lacks
the condition key would raise KeyError in the join; that is modelled as an
empty string and is not exercised.  The formatted query is none when template
lookup or a placeholder substitution fails. -/
def construct_query (query_chain : List Dict) : Option String × List Dict :=
  match query_chain with
  | [] => (Option.none, [])
  | first :: rest =>
    match alookup first "action" with
    | Option.none => (Option.none, first :: rest)
    | some qt0 =>
      let step : Dict × DVal → Dict → Dict × DVal := fun acc q =>
        if alookup q "action" = some (DVal.s "db__where") then
          let res_dict := if acc.2 = DVal.s "db__select_all"
                          then aset acc.1 "action" (.s "db__select") else acc.1
          let query_type := if acc.2 = DVal.s "db__select_all"
                            then DVal.s "db__select" else acc.2
          let condition := (alookup res_dict "condition").getD (.s "")
          let qcond := (alookup q "condition").getD (.s "")
          let condition :=
            if condition.truthy then DVal.s (condition.asStr ++ " AND " ++ qcond.asStr)
            else qcond
          (aset res_dict "condition" condition, query_type)
        else acc
      let folded := (first :: rest).foldl step (first, qt0)
      let res_dict := assign_ordering folded.1
      let query : Option String :=
        match alookup res_dict "action" with
        | some (DVal.s a) =>
          (match template a with
           | some t =>
             (pyFormat (fun k => (alookup res_dict k).map DVal.asStr) t).map query_clean
           | Option.none => Option.none)
        | _ => Option.none
      (query, res_dict :: rest)

/-- The state of a paginated Cursor (db_manager.py lines 1-45) over the rows a
driver cursor for its query yields (`table` below).  `opened` models whether
self._cursor has been created; `fetchLog` records the sizes handed to the
driver fetch call, newest last, so the batch sizes requested are observable. -/
structure Cursor (ρ : Type) where
  step : Nat
  forward : Nat
  stop : Option Nat
  results : List ρ := []
  opened : Bool := false
  fetchLog : List Nat := []

/-- Cursor.get_results (db_manager.py lines 13-30): open a driver cursor,
advance it by `forward` rows, signal StopAsyncIteration (none) when the stop
bound has been reached, shrink the step to the remaining distance when the next
batch would cross the bound — note the mutation of self._step persists — fetch,
and signal StopAsyncIteration on an empty fetch. -/
def Cursor.get_results (table : List ρ) (c : Cursor ρ) : Option (List ρ) × Cursor ρ :=
  let c := { c with opened := true }
  match c.stop with
  | some stop =>
    if stop ≤ c.forward then (Option.none, c)
    else
      let c := if stop ≤ c.forward + c.step then { c with step := stop - c.forward } else c
      let results := (table.drop c.forward).take c.step
      let c := { c with fetchLog := c.fetchLog ++ [c.step] }
      if results.isEmpty then (Option.none, c) else (some results, c)
  | Option.none =>
    let results := (table.drop c.forward).take c.step
    let c := { c with fetchLog := c.fetchLog ++ [c.step] }
    if results.isEmpty then (Option.none, c) else (some results, c)

/-- Cursor.__anext__ (db_manager.py lines 35-45): fetch a first batch when the
cursor has never been opened; when the buffered batch is spent, advance the
offset by the (possibly shrunk) step, clamp it to the stop bound, and fetch the
next batch; then pop the first buffered row.  StopAsyncIteration from either
fetch propagates (none). -/
def Cursor.anext (table : List ρ) (c : Cursor ρ) : Option ρ × Cursor ρ :=
  let r1 : Option Unit × Cursor ρ :=
    if c.opened then (some (), c)
    else
      match Cursor.get_results table c with
      | (Option.none, c2) => (Option.none, c2)
      | (some rs, c2) => (some (), { c2 with results := rs })
  match r1 with
  | (Option.none, c2) => (Option.none, c2)
  | (some _, c2) =>
    let r2 : Option Unit × Cursor ρ :=
      if c2.results.isEmpty then
        let fwd := c2.forward + c2.step
        let fwd := match c2.stop with
                   | some stop => if stop < fwd then stop else fwd
                   | Option.none => fwd
        match Cursor.get_results table { c2 with forward := fwd } with
        | (Option.none, c3) => (Option.none, c3)
        | (some rs, c3) => (some (), { c3 with results := rs })
      else (some (), c2)
    match r2 with
    | (Option.none, c3) => (Option.none, c3)
    | (some _, c3) =>
      match c3.results with
      | [] => (Option.none, c3)
      | r :: rs => (some r, { c3 with results := rs })

/-- Iterate anext up to n times, collecting the produced rows in order and
stopping at the first end-of-sequence signal. -/
def Cursor.drain (table : List ρ) : Nat → Cursor ρ → List ρ × Cursor ρ
  | 0, c => ([], c)
  | n + 1, c =>
    match Cursor.anext table c with
    | (Option.none, c2) => ([], c2)
    | (some r, c2) =>
      let rec2 := Cursor.drain table n c2
      (r :: rec2.1, rec2.2)

/-- A piece of a format template: literal text or a {name} replacement field. -/
inductive Piece where
  | lit (s : String)
  | ref (k : String)

/-- The template text a list of pieces denotes. -/
def renderT : List Piece → String
  | [] => ""
  | .lit s :: ps => s ++ renderT ps
  | .ref k :: ps => "\x7b" ++ k ++ "\x7d" ++ renderT ps

/-- Direct substitution over a list of pieces: literals pass through, fields are
looked up, a failed lookup fails the whole substitution. -/
def substT (look : String → Option String) : List Piece → Option String
  | [] => some ""
  | .lit s :: ps => (substT look ps).map (fun t => s ++ t)
  | .ref k :: ps =>
    match look k with
    | Option.none => Option.none
    | some v => (substT look ps).map (fun t => v ++ t)

/-- The creation_string of each single-column kind, as template pieces; aligned
with kindCreationString case by case. -/
def kindPieces (f : FieldSpec) : Option (List Piece) :=
  match f.kind with
  | .booleanField => some [.lit "boolean"]
  | .charField | .emailField => some [.lit "varchar(", .ref "max_length", .lit ")"]
  | .textField => some [.lit "text"]
  | .integerField => some [.lit "integer"]
  | .bigIntegerField => some [.lit "bigint"]
  | .floatField => some [.lit "double precision"]
  | .decimalField =>
    some [.lit "decimal(", .ref "max_digits", .lit ",", .ref "decimal_places", .lit ")"]
  | .autoField | .bigAutoField => some [.lit "serial PRIMARY KEY"]
  | .dateTimeField => some [.lit "timestamp"]
  | .dateField => some [.lit "date"]
  | .timeField => some [.lit "time"]
  | .foreignKey => some [.lit "integer references ", .ref "foreign_key"]
  | .jsonField => some [.lit "JSON"]
  | .uuid4Field =>
    if f.uuid_type = "v1" then some [.lit "UUID DEFAULT uuid_generate_v1mc()"]
    else if f.uuid_type = "v4" then some [.lit "UUID DEFAULT uuid_generate_v4()"]
    else Option.none
  | .arrayField => some [.ref "value_type", .lit " ARRAY"]
  | .manyToMany => Option.none

/-- The DDL fragment of each single-column kind with its parameters substituted,
as the specification words it (kind column of the spec table, section 4.1). -/
def specDdl (f : FieldSpec) : Option String :=
  match f.kind with
  | .booleanField => some "boolean"
  | .charField | .emailField => some ("varchar(" ++ toString f.max_length ++ ")")
  | .textField => some "text"
  | .integerField => some "integer"
  | .bigIntegerField => some "bigint"
  | .floatField => some "double precision"
  | .decimalField =>
    some ("decimal(" ++ toString f.max_digits ++ "," ++ toString f.decimal_places ++ ")")
  | .autoField | .bigAutoField => some "serial PRIMARY KEY"
  | .dateTimeField => some "timestamp"
  | .dateField => some "date"
  | .timeField => some "time"
  | .foreignKey => some ("integer references " ++ f.foreign_key)
  | .jsonField => some "JSON"
  | .uuid4Field =>
    if f.uuid_type = "v1" then some "UUID DEFAULT uuid_generate_v1mc()"
    else if f.uuid_type = "v4" then some "UUID DEFAULT uuid_generate_v4()"
    else Option.none
  | .arrayField => some (f.value_type ++ " ARRAY")
  | .manyToMany => Option.none

/-- The creation DDL as the amended specification words it: the column name, a
space, the kind DDL fragment with its parameters already substituted, then the
resolved default clause, then " UNIQUE" exactly when unique is set, then
" NULL" when nullable else " NOT NULL" — assembled by plain concatenation. -/
def creationQuerySpec (er : String → Bool) (loads : String → Option PyVal)
    (dumps : PyVal → String) (f : FieldSpec) : Option String :=
  (specDdl f).bind fun ddl =>
    (defaultInsert er loads dumps f).bind fun dc =>
      some (f.db_column ++ " " ++ ddl ++ dc
        ++ (if f.unique then " UNIQUE" else "")
        ++ (if f.null then " NULL" else " NOT NULL"))

/-- The query chain of the compiler example: a select-all over book with select
clause "*", followed by two where operations. -/
def chainC1 : List Dict :=
  [[("action", .s "db__select_all"), ("select", .s "*"), ("table_name", .s "book")],
   [("action", .s "db__where"), ("condition", .s "price > 100")],
   [("action", .s "db__where"), ("condition", .s "quantity > 0")]]

/-- A concrete email-regex oracle for closed statements whose field kind never
consults it. -/
def er0 : String → Bool := fun _ => false

/-- A concrete json decoder for closed statements that never parse json. -/
def loads0 : String → Option PyVal := fun _ => Option.none

/-- A concrete json encoder for closed statements that never serialize json. -/
def dumps0 : PyVal → String := fun _ => ""

/-- Setting a key makes it readable back. -/
theorem alookup_aset {α : Type} (l : List (String × α)) (k : String) (v : α) :
    alookup (aset l k v) k = some v := by
  induction l with
  | nil => simp [aset, alookup]
  | cons p rest ih =>
    obtain ⟨k2, w⟩ := p
    by_cases h : k2 = k
    · simp [aset, alookup, h]
    · simp [aset, alookup, h, ih]

/-- C1 counterexample: on the chain [SelectAll(book, "*"), Where(price > 100),
Where(quantity > 0)] the compiled query is not the claimed string with two
spaces between the closing parenthesis and the semicolon: the select template
puts exactly one space (from "{condition} ) {ordering}" with empty ordering)
before the appended ";". -/
theorem construct_query_chain_cex :
    (construct_query chainC1).1 ≠
      some "SELECT * FROM book WHERE ( price > 100 AND quantity > 0 )  ;" := by
  decide

/-- C1 amended: the compiled query is the claimed string with a single space
before the trailing ";"; the head operation is reclassified from db__select_all
to db__select, the two conditions are AND-merged with no leading AND, and the
ordering clause is empty. -/
theorem construct_query_chain :
    (construct_query chainC1).1 =
      some "SELECT * FROM book WHERE ( price > 100 AND quantity > 0 ) ;" ∧
    alookup ((construct_query chainC1).2.headI) "action" = some (.s "db__select") ∧
    alookup ((construct_query chainC1).2.headI) "condition" =
      some (.s "price > 100 AND quantity > 0") ∧
    alookup ((construct_query chainC1).2.headI) "ordering" = some (.s "") := by
  decide

/-- C9: construct_query mutates the first operation record of the chain in
place (the returned chain differs from the input chain), and compiling the
returned chain again yields a different SQL string — the conditions are
AND-merged a second time. -/
theorem construct_query_mutates :
    (construct_query chainC1).2 ≠ chainC1 ∧
    (construct_query ((construct_query chainC1).2)).1 ≠ (construct_query chainC1).1 ∧
    (construct_query ((construct_query chainC1).2)).1 =
      some "SELECT * FROM book WHERE ( price > 100 AND quantity > 0 AND price > 100 AND quantity > 0 ) ;" := by
  decide

/-- C7: ordering synthesis.  When the select clause is exactly "*", the
ordering list ["-id"] produces the clause "ORDER BY  id DESC " (a leading "-"
becomes "{column} DESC" with the surrounding spaces of the format, comma-joined
after "ORDER BY "); for any other select clause the ordering slot is set to the
empty string whatever the ordering was; an empty ordering list also yields the
empty string. -/
theorem ordering_synthesis (res : Dict) :
    (alookup res "select" = some (DVal.s "*") →
     alookup res "ordering" = some (DVal.ls ["-id"]) →
     alookup (assign_ordering res) "ordering" = some (DVal.s "ORDER BY  id DESC ")) ∧
    (∀ sel, alookup res "select" = some sel → sel ≠ DVal.s "*" →
        alookup (assign_ordering res) "ordering" = some (DVal.s "")) ∧
    ordering_syntax (DVal.ls ["-id"]) = "ORDER BY  id DESC " ∧
    ordering_syntax (DVal.ls []) = "" := by
  refine ⟨?_, ?_, by decide, by decide⟩
  · intro hsel hord
    rw [assign_ordering, if_pos (by rw [hsel]; rfl), hord]
    rw [alookup_aset]
    decide
  · intro sel hsel hne
    rw [assign_ordering, if_neg (by rw [hsel]; simpa using hne)]
    rw [alookup_aset]

/-- C7 witness: the theorem applied at a concrete record with select "*" and
ordering ["-id"], and at one with the aggregate select "COUNT(*)". -/
theorem ordering_synthesis_witness :
    alookup (assign_ordering [("select", .s "*"), ("ordering", .ls ["-id"])]) "ordering" =
      some (DVal.s "ORDER BY  id DESC ") ∧
    alookup (assign_ordering [("select", .s "COUNT(*)"), ("ordering", .ls ["-id"])]) "ordering" =
      some (DVal.s "") := by
  constructor
  · exact (ordering_synthesis [("select", .s "*"), ("ordering", .ls ["-id"])]).1 rfl rfl
  · exact (ordering_synthesis [("select", .s "COUNT(*)"), ("ordering", .ls ["-id"])]).2.1
      (DVal.s "COUNT(*)") rfl (by decide)

/-- C2: a cursor with batch size 3, starting offset 0 and stop bound 7, over a
query result of at least 7 rows, produces exactly the first 7 rows across 8
next calls (the eighth signals end-of-sequence); the driver fetches request 3,
3, then 1 rows, the last shrunk to stop minus offset; and in general, whenever
the offset has reached the stop bound, get_results signals end-of-sequence
without performing any fetch. -/
theorem cursor_batches (r0 r1 r2 r3 r4 r5 r6 : Nat) (rest : List Nat) :
    (Cursor.drain (r0 :: r1 :: r2 :: r3 :: r4 :: r5 :: r6 :: rest) 8
        { step := 3, forward := 0, stop := some 7 }).1 = [r0, r1, r2, r3, r4, r5, r6] ∧
    (Cursor.drain (r0 :: r1 :: r2 :: r3 :: r4 :: r5 :: r6 :: rest) 8
        { step := 3, forward := 0, stop := some 7 }).2.fetchLog = [3, 3, 1] ∧
    ∀ (table : List Nat) (c : Cursor Nat) (b : Nat), c.stop = some b → b ≤ c.forward →
      (Cursor.get_results table c).1 = Option.none ∧
      (Cursor.get_results table c).2.fetchLog = c.fetchLog := by
  refine ⟨rfl, rfl, ?_⟩
  intro table c b hb hle
  simp [Cursor.get_results, hb, hle]

/-- C2 witness: the theorem applied to the concrete table [10..18] and, for the
general clause, to a cursor whose offset 5 has passed its stop bound 4. -/
theorem cursor_batches_witness :
    (Cursor.drain [10, 11, 12, 13, 14, 15, 16, 17, 18] 8
        { step := 3, forward := 0, stop := some 7 }).1 = [10, 11, 12, 13, 14, 15, 16] ∧
    (Cursor.get_results ([] : List Nat) { step := 3, forward := 5, stop := some 4 }).1 =
      Option.none := by
  constructor
  · exact (cursor_batches 10 11 12 13 14 15 16 [17, 18]).1
  · exact ((cursor_batches 0 0 0 0 0 0 0 []).2.2 [] { step := 3, forward := 5, stop := some 4 }
      4 rfl (by decide)).1

/-- On a NOT NULL field the base validate rejects None first. -/
theorem base_validate_none_notnull (f : FieldSpec) (h : f.null = false) :
    Field.validate f PyVal.none = .fieldError "null value in NOT NULL field" := by
  simp [Field.validate, PyVal.isNone, h]

/-- On a nullable field without choices the base validate accepts None. -/
theorem base_validate_none_nullable (f : FieldSpec) (h : f.null = true)
    (hc : f.choices = Option.none) :
    Field.validate f PyVal.none = .ok := by
  simp [Field.validate, PyVal.isNone, h, hc]

/-- With choices declared whose keys do not contain None, the base validate
never accepts None: either the null check or the choices check raises. -/
theorem base_validate_none_choices (f : FieldSpec) (ks : List PyVal)
    (hc : f.choices = some ks) (hk : ks.any (fun k => pyEq PyVal.none k) = false) :
    Field.validate f PyVal.none ≠ .ok := by
  cases hnull : f.null
  · simp [Field.validate, PyVal.isNone, hnull]
  · simp [Field.validate, PyVal.isNone, hnull, hc, hk]

/-- C3 amended: for every embedded field kind except ManyToMany (which never
receives a null attribute and cannot be declared nullable): with null false,
validate(None) raises the NOT NULL FieldError for every kind; with null true,
validate(None) succeeds provided no choices mapping is declared and the kind is
not Email; a declared choices mapping without a None key makes validate(None)
raise even on a nullable field; and a nullable choices-free Email field fails
with a TypeError from matching its regex against None. -/
theorem validate_none_amended (er : String → Bool) (f : FieldSpec)
    (hm : f.kind ≠ Kind.manyToMany) :
    (f.null = false → validateK er f PyVal.none = .fieldError "null value in NOT NULL field") ∧
    (f.null = true → f.choices = Option.none → f.kind ≠ Kind.emailField →
      validateK er f PyVal.none = .ok) ∧
    (∀ ks, f.choices = some ks → ks.any (fun k => pyEq PyVal.none k) = false →
      validateK er f PyVal.none ≠ .ok) ∧
    (f.kind = Kind.emailField → f.null = true → f.choices = Option.none →
      validateK er f PyVal.none = .typeError) := by
  refine ⟨?_, ?_, ?_, ?_⟩
  · intro h
    cases hk : f.kind <;>
      simp_all [validateK, ArrayField.validate, base_validate_none_notnull f h]
  · intro h hc he
    cases hk : f.kind <;>
      simp_all [validateK, ArrayField.validate, PyVal.truthy,
        base_validate_none_nullable f h hc]
  · intro ks hc hks
    have hb := base_validate_none_choices f ks hc hks
    cases hk : f.kind <;> simp only [validateK, hk] <;>
      first
      | exact hb
      | exact absurd hk hm
      | (cases h : Field.validate f PyVal.none with
          | ok => exact absurd h hb
          | fieldError m => simp [ArrayField.validate, h]
          | typeError => simp [ArrayField.validate, h])
  · intro hk h hc
    simp [validateK, hk, base_validate_none_nullable f h hc]

/-- C3 counterexample: a nullable Char field declared with choices; although
null is true, validate(None) raises because None is not among the choices keys,
so the claim that validate(None) always succeeds on nullable fields fails. -/
theorem validate_none_cex :
    validateK er0
      { kind := Kind.charField, null := true, choices := some [PyVal.str "a"],
        max_length := 10 } PyVal.none ≠ VRes.ok := by
  decide

/-- C3 witness: the amended theorem applied to concrete Char fields (null
false, null true) and a nullable Email field. -/
theorem validate_none_amended_witness :
    validateK er0 { kind := Kind.charField, null := false, max_length := 10 } PyVal.none =
      VRes.fieldError "null value in NOT NULL field" ∧
    validateK er0 { kind := Kind.charField, null := true, max_length := 10 } PyVal.none =
      VRes.ok ∧
    validateK er0 { kind := Kind.emailField, null := true, max_length := 10 } PyVal.none =
      VRes.typeError := by
  refine ⟨?_, ?_, ?_⟩
  · exact (validate_none_amended er0
      { kind := Kind.charField, null := false, max_length := 10 } (by decide)).1 rfl
  · exact (validate_none_amended er0
      { kind := Kind.charField, null := true, max_length := 10 } (by decide)).2.1 rfl rfl
      (by decide)
  · exact (validate_none_amended er0
      { kind := Kind.emailField, null := true, max_length := 10 } (by decide)).2.2.2 rfl rfl rfl

/-- The base validate accepts any list value on an Array field without choices:
a list is not None, so the null check passes whatever `null` is, and a list is
an instance of the internal type. -/
theorem base_validate_array_list (f : FieldSpec) (hk : f.kind = Kind.arrayField)
    (hc : f.choices = Option.none) (xs : List PyVal) :
    Field.validate f (.list xs) = .ok := by
  simp [Field.validate, PyVal.isNone, hc, hk, internalTypeMatch, isinst, pyType]

/-- C5 counterexample: the list [1, True] does not have elements of one runtime
type (int versus bool), yet ArrayField.validate accepts it: homogeneous_type
checks the later elements with isinstance against the first element type, and
Python bool is a subclass of int. -/
theorem array_validate_cex :
    ArrayField.validate { kind := Kind.arrayField, null := true }
      (.list [PyVal.int 1, PyVal.bool true]) = VRes.ok ∧
    pyType (PyVal.int 1) ≠ pyType (PyVal.bool true) := by
  decide

/-- C5 amended: for every Array field (these never declare choices), a
non-empty list with a later element that is not an isinstance of the first
element type — type equality up to the bool-under-int and datetime-under-date
subclassings, so [1, "a"] still fails while [1, True] passes — raises the
same-type FieldError; a non-empty rectangular list of lists (all inner lengths
equal) passes; a list of lists with an inner length differing from the first
raises the same-size FieldError. -/
theorem array_validate_amended (f : FieldSpec) (hk : f.kind = Kind.arrayField)
    (hc : f.choices = Option.none) :
    (∀ x rest, (∃ y ∈ rest, isinst y (pyType x) = false) →
      ArrayField.validate f (.list (x :: rest)) =
        .fieldError "Array elements are not of the same type") ∧
    (∀ (ys0 : List PyVal) (yrest : List (List PyVal)),
      (∀ ys ∈ ys0 :: yrest, List.length ys = ys0.length) →
      ArrayField.validate f (.list ((ys0 :: yrest).map PyVal.list)) = .ok) ∧
    (∀ (ys0 : List PyVal) (yrest : List (List PyVal)),
      (∃ ys ∈ yrest, List.length ys ≠ ys0.length) →
      ArrayField.validate f (.list ((ys0 :: yrest).map PyVal.list)) =
        .fieldError "Multi-dimensional arrays must have items of the same size") := by
  refine ⟨?_, ?_, ?_⟩
  · intro x rest hex
    obtain ⟨y, hy, hyf⟩ := hex
    have hall : rest.all (fun y => isinst y (pyType x)) = false := by
      cases hall : rest.all (fun y => isinst y (pyType x)) with
      | true => exact absurd (List.all_eq_true.mp hall y hy) (by simp [hyf])
      | false => rfl
    simp [ArrayField.validate, base_validate_array_list f hk hc, PyVal.truthy,
      homogeneous_type, hall]
  · intro ys0 yrest hlen
    have h1 : ∀ a ∈ yrest, isinst (PyVal.list a) PyType.listT = true := by
      intro a _
      simp [isinst, pyType]
    have h2 : ∀ a ∈ yrest, pyLen (PyVal.list a) = pyLen (PyVal.list ys0) := by
      intro a ha
      simp [pyLen, hlen a (List.mem_cons_of_mem _ ha)]
    simp [ArrayField.validate, base_validate_array_list f hk hc, PyVal.truthy,
      homogeneous_type, pyType]
    rw [if_pos h1]
    simp only []
    rw [if_pos h2]
    simp
  · intro ys0 yrest hex
    obtain ⟨ys, hys, hne⟩ := hex
    have h1 : ∀ a ∈ yrest, isinst (PyVal.list a) PyType.listT = true := by
      intro a _
      simp [isinst, pyType]
    have h3 : ¬ ∀ a ∈ yrest, pyLen (PyVal.list a) = pyLen (PyVal.list ys0) := by
      intro hforall
      have := hforall ys hys
      simp [pyLen] at this
      exact hne this
    simp [ArrayField.validate, base_validate_array_list f hk hc, PyVal.truthy,
      homogeneous_type, pyType]
    rw [if_pos h1]
    simp only []
    rw [if_neg h3]
    simp

/-- C5 witness: the amended theorem applied to the heterogeneous list [1, "a"],
the rectangular [[1,2],[3,4]] and the jagged [[1,2],[3]]. -/
theorem array_validate_amended_witness :
    ArrayField.validate { kind := Kind.arrayField, null := true }
      (.list [PyVal.int 1, PyVal.str "a"]) =
      VRes.fieldError "Array elements are not of the same type" ∧
    ArrayField.validate { kind := Kind.arrayField, null := true }
      (.list [.list [PyVal.int 1, PyVal.int 2], .list [PyVal.int 3, PyVal.int 4]]) = VRes.ok ∧
    ArrayField.validate { kind := Kind.arrayField, null := true }
      (.list [.list [PyVal.int 1, PyVal.int 2], .list [PyVal.int 3]]) =
      VRes.fieldError "Multi-dimensional arrays must have items of the same size" := by
  refine ⟨?_, ?_, ?_⟩
  · exact (array_validate_amended { kind := Kind.arrayField, null := true } rfl rfl).1
      (PyVal.int 1) [PyVal.str "a"] ⟨PyVal.str "a", by simp, by decide⟩
  · exact (array_validate_amended { kind := Kind.arrayField, null := true } rfl rfl).2.1
      [PyVal.int 1, PyVal.int 2] [[PyVal.int 3, PyVal.int 4]] (by simp)
  · exact (array_validate_amended { kind := Kind.arrayField, null := true } rfl rfl).2.2
      [PyVal.int 1, PyVal.int 2] [[PyVal.int 3]] ⟨[PyVal.int 3], by simp, by decide⟩

/-- The backslash-semicolon replacement is the identity on text free of the
pattern. -/
theorem replaceSemi_eq_self (l : List Char) (h : containsSub ['\\', ';'] l = false) :
    replaceSemi l = l := by
  induction l with
  | nil => rfl
  | cons c cs ih =>
    cases cs with
    | nil => rfl
    | cons c2 rest =>
      rw [containsSub, Bool.or_eq_false_iff] at h
      obtain ⟨hpre, htail⟩ := h
      rw [replaceSemi, if_neg ?_]
      · rw [ih htail]
      · rintro ⟨hc, hc2⟩
        subst hc hc2
        simp [isPre] at hpre

/-- The backslash-dash-dash replacement is the identity on text free of the
pattern. -/
theorem replaceDashes_eq_self (l : List Char) (h : containsSub ['\\', '-', '-'] l = false) :
    replaceDashes l = l := by
  induction l with
  | nil => rfl
  | cons c cs ih =>
    cases cs with
    | nil => rfl
    | cons c2 cs2 =>
      cases cs2 with
      | nil => rfl
      | cons c3 rest =>
        rw [containsSub, Bool.or_eq_false_iff] at h
        obtain ⟨hpre, htail⟩ := h
        rw [replaceDashes, if_neg ?_]
        · rw [ih htail]
        · rintro ⟨hc, hc2, hc3⟩
          subst hc hc2 hc3
          simp [isPre] at hpre

/-- C4: for every Char field and every string free of the literal substrings
backslash-semicolon and backslash-dash-dash, a successful sanitize_data returns
the string itself and recompose restores it exactly. -/
theorem charfield_roundtrip (er : String → Bool) (f : FieldSpec)
    (hk : f.kind = Kind.charField) (v : String) (w : PyVal)
    (h1 : containsSub ['\\', ';'] v.data = false)
    (h2 : containsSub ['\\', '-', '-'] v.data = false)
    (h3 : CharField.sanitize_data er f (.str v) = .ok w) :
    CharField.recompose w = some (.str v) := by
  have hw : w = PyVal.str v := by
    unfold CharField.sanitize_data Field.sanitize_data at h3
    cases hv : validateK er f (.str v) <;> rw [hv] at h3 <;> simp [pyLen, pyStr] at h3
    split at h3
    · simp at h3
    · simp at h3
      exact h3.symm
  subst hw
  show some (PyVal.str (String.mk (replaceDashes (replaceSemi v.data)))) = some (PyVal.str v)
  rw [replaceSemi_eq_self _ h1, replaceDashes_eq_self _ h2]

/-- C4 witness: the theorem applied to a concrete Char field and the string
"hello". -/
theorem charfield_roundtrip_witness :
    CharField.sanitize_data er0 { kind := Kind.charField, max_length := 20 } (.str "hello") =
      SanResult.ok (.str "hello") ∧
    CharField.recompose (.str "hello") = some (.str "hello") := by
  refine ⟨rfl, ?_⟩
  exact charfield_roundtrip er0 { kind := Kind.charField, max_length := 20 } rfl "hello"
    (.str "hello") (by decide) (by decide) rfl

/-- C10: for nullable Char and Json fields (no choices declared), sanitize_data
of None neither returns a value nor raises a FieldError: validate accepts the
None, but the subsequent length check applies len to None and fails with a
TypeError. -/
theorem sanitize_none_not_total (er : String → Bool) (loads : String → Option PyVal)
    (dumps : PyVal → String) (fc fj : FieldSpec)
    (hck : fc.kind = Kind.charField) (hcn : fc.null = true) (hcc : fc.choices = Option.none)
    (hjk : fj.kind = Kind.jsonField) (hjn : fj.null = true) (hjc : fj.choices = Option.none) :
    CharField.sanitize_data er fc PyVal.none = SanResult.typeError ∧
    JsonField.sanitize_data er loads dumps fj PyVal.none = SanResult.typeError := by
  have h1 : validateK er fc PyVal.none = VRes.ok := by
    simp [validateK, hck, base_validate_none_nullable fc hcn hcc]
  have h2 : validateK er fj PyVal.none = VRes.ok := by
    simp [validateK, hjk, base_validate_none_nullable fj hjn hjc]
  constructor
  · unfold CharField.sanitize_data Field.sanitize_data
    rw [h1]
    simp [pyLen]
  · unfold JsonField.sanitize_data
    rw [h2]
    simp [pyLen]

/-- C10 witness: the theorem applied to concrete nullable Char and Json
fields. -/
theorem sanitize_none_not_total_witness :
    CharField.sanitize_data er0 { kind := Kind.charField, null := true, max_length := 10 }
      PyVal.none = SanResult.typeError ∧
    JsonField.sanitize_data er0 loads0 dumps0
      { kind := Kind.jsonField, null := true, max_length := 10 } PyVal.none =
      SanResult.typeError := by
  exact sanitize_none_not_total er0 loads0 dumps0
    { kind := Kind.charField, null := true, max_length := 10 }
    { kind := Kind.jsonField, null := true, max_length := 10 } rfl rfl rfl rfl rfl rfl

/-- A column name violating any of the three naming rules makes set_field_name
raise. -/
theorem set_field_name_bad (s : String)
    (h : containsSub ['_', '_'] s.data = true ∨ isPre ['_'] s.data = true ∨
      s.data.getLast? = some '_') :
    (set_field_name s).isSome = true := by
  unfold set_field_name
  rcases h with h | h | h
  · simp [h]
  · cases hA : containsSub ['_', '_'] s.data <;> simp [h]
  · cases hA : containsSub ['_', '_'] s.data <;> cases hB : isPre ['_'] s.data <;> simp [h]

/-- C8: constructing a field raises a FieldError when a required kind-specific
parameter is missing — the signature default (0 for max_length, "" or None for
foreign_key) is falsy, so the required check fires for Char/Email/Json without
max_length and ForeignKey/ManyToMany without foreign_key; when any supplied
parameter is not an instance of its declared KWARGS_TYPES type (the isinstance
check, so a bool is accepted where an int is declared; a None choices value is
exempt); or when a non-empty column name contains "__", starts with "_", or
ends with "_". -/
theorem construction_errors :
    (∀ choices db_column db_index dflt null unique,
      (CharField.init choices db_column db_index dflt (.int 0) null unique).isSome = true ∧
      (EmailField.init choices db_column db_index dflt (.int 0) null unique).isSome = true ∧
      (JsonField.init choices db_column db_index dflt (.int 0) null unique).isSome = true) ∧
    (∀ db_column db_index dflt null unique,
      (ForeignKey.init db_column db_index dflt (.str "") null unique).isSome = true) ∧
    (∀ db_column db_index dflt unique,
      (ManyToManyField.init db_column db_index dflt PyVal.none unique).isSome = true) ∧
    (∀ k kwargs key v t, (key, v) ∈ kwargs → KWARGS_TYPES key = some t →
      matchesTy v t = false → ¬(v.isNone = true ∧ key = "choices") →
      (validate_kwargs k kwargs).isSome = true) ∧
    (∀ k kwargs s, alookup kwargs "db_column" = some (PyVal.str s) → s ≠ "" →
      (containsSub ['_', '_'] s.data = true ∨ isPre ['_'] s.data = true ∨
        s.data.getLast? = some '_') →
      (validate_kwargs k kwargs).isSome = true) := by
  refine ⟨fun _ _ _ _ _ _ => ⟨rfl, rfl, rfl⟩, fun _ _ _ _ _ => rfl, fun _ _ _ _ => rfl,
    ?_, ?_⟩
  · intro k kwargs key v t hmem hty hmatch hnc
    have hb : (v.isNone && (key == "choices")) = false := by
      cases hvn : v.isNone with
      | false => simp
      | true =>
        simp only [Bool.true_and]
        cases hkc : (key == "choices") with
        | false => rfl
        | true => exact absurd ⟨hvn, eq_of_beq hkc⟩ hnc
    cases hreq : (required_kwargs k).find?
        (fun kw => !((alookup kwargs kw).getD PyVal.none).truthy) with
    | some kw => simp [validate_kwargs, hreq]
    | none =>
      have hfind : (kwargs.find? kwargMismatch).isSome = true := by
        rw [List.find?_isSome]
        exact ⟨(key, v), hmem, by simp [kwargMismatch, hty, hmatch, hb]⟩
      cases hf : kwargs.find? kwargMismatch with
      | some p => simp [validate_kwargs, hreq, hf]
      | none => rw [hf] at hfind; simp at hfind
  · intro k kwargs s hdb hne hbad
    cases hreq : (required_kwargs k).find?
        (fun kw => !((alookup kwargs kw).getD PyVal.none).truthy) with
    | some kw => simp [validate_kwargs, hreq]
    | none =>
      cases hf : kwargs.find? kwargMismatch with
      | some p => simp [validate_kwargs, hreq, hf]
      | none =>
        simp only [validate_kwargs, hreq, hf, hdb, Option.getD_some]
        rw [if_pos hne]
        exact set_field_name_bad s hbad

/-- C8 witness: the theorem applied to a CharField constructed without
max_length, a bool parameter given a string, and a column name starting with
an underscore. -/
theorem construction_errors_witness :
    (CharField.init PyVal.none (.str "") (.bool false) PyVal.none (.int 0) (.bool false)
      (.bool false)).isSome = true ∧
    (validate_kwargs Kind.booleanField [("null", PyVal.str "yes")]).isSome = true ∧
    (validate_kwargs Kind.booleanField [("db_column", PyVal.str "_bad")]).isSome = true := by
  refine ⟨?_, ?_, ?_⟩
  · exact (construction_errors.1 PyVal.none (.str "") (.bool false) PyVal.none (.bool false)
      (.bool false)).1
  · exact construction_errors.2.2.2.1 Kind.booleanField [("null", PyVal.str "yes")] "null"
      (PyVal.str "yes") KwTy.tyBool (by simp) rfl (by decide) (by simp)
  · exact construction_errors.2.2.2.2 Kind.booleanField [("db_column", PyVal.str "_bad")]
      "_bad" rfl (by decide) (Or.inr (Or.inl (by decide)))

/-- A brace-free string has no brace among its characters. -/
theorem noBrace_chars {s : String} (h : noBrace s = true) :
    ∀ c ∈ s.data, ¬(c = '\x7b' ∨ c = '\x7d') := by
  intro c hc
  have := List.all_eq_true.mp h c hc
  simp at this
  rintro (rfl | rfl) <;> simp_all

/-- The format scan copies a brace-free literal prefix verbatim. -/
theorem pfaGo_lit (look : String → Option String) (cs t : List Char)
    (h : ∀ c ∈ cs, ¬(c = '\x7b' ∨ c = '\x7d')) :
    pfaGo look Option.none (cs ++ t) =
      (pfaGo look Option.none t).map (fun r => cs ++ r) := by
  induction cs with
  | nil => simp
  | cons c cs ih =>
    have hc := h c (List.mem_cons_self c cs)
    push_neg at hc
    rw [List.cons_append, pfaGo, if_neg hc.1, if_neg hc.2,
      ih (fun c hc => h c (List.mem_cons_of_mem _ hc)), Option.map_map]
    rfl

/-- The format scan inside a replacement field accumulates a brace-free key up
to the closing brace and splices the looked-up value. -/
theorem pfaGo_key (look : String → Option String) (acc kc t : List Char)
    (h : ∀ c ∈ kc, ¬(c = '\x7b' ∨ c = '\x7d')) :
    pfaGo look (some acc) (kc ++ '\x7d' :: t) =
      (match look (String.mk (acc.reverse ++ kc)) with
       | Option.none => Option.none
       | some v => (pfaGo look Option.none t).map (fun r => v.data ++ r)) := by
  induction kc generalizing acc with
  | nil =>
    rw [List.nil_append, pfaGo, if_pos rfl]
    simp
  | cons c kc ih =>
    have hc := h c (List.mem_cons_self c kc)
    push_neg at hc
    rw [List.cons_append, pfaGo, if_neg hc.2, if_neg hc.1,
      ih (c :: acc) (fun c hc => h c (List.mem_cons_of_mem _ hc))]
    have : (c :: acc).reverse ++ kc = acc.reverse ++ (c :: kc) := by
      simp
    rw [this]

/-- str.format over a template assembled from brace-free literal pieces and
brace-free field names is exactly the piece-by-piece substitution. -/
theorem pyFormat_renderT (look : String → Option String) (ps : List Piece)
    (hl : ∀ s, Piece.lit s ∈ ps → noBrace s = true)
    (hr : ∀ k, Piece.ref k ∈ ps → noBrace k = true) :
    pyFormat look (renderT ps) = substT look ps := by
  induction ps with
  | nil => rfl
  | cons p ps ih =>
    have ih2 := ih (fun s hs => hl s (List.mem_cons_of_mem _ hs))
      (fun k hk2 => hr k (List.mem_cons_of_mem _ hk2))
    cases p with
    | lit s =>
      have hs := hl s (List.mem_cons_self _ _)
      show (pfaGo look Option.none (s ++ renderT ps).data).map String.mk =
        (substT look ps).map (fun t => s ++ t)
      rw [String.data_append, pfaGo_lit look _ _ (noBrace_chars hs), Option.map_map, ← ih2]
      show (pfaGo look Option.none (renderT ps).data).map
          (fun r => String.mk (s.data ++ r)) = _
      rw [pyFormat, Option.map_map]
      rfl
    | ref k =>
      have hk2 := hr k (List.mem_cons_self _ _)
      show (pfaGo look Option.none ("\x7b" ++ k ++ "\x7d" ++ renderT ps).data).map String.mk = _
      have hdata : ("\x7b" ++ k ++ "\x7d" ++ renderT ps).data =
          '\x7b' :: (k.data ++ '\x7d' :: (renderT ps).data) := by
        simp [String.data_append]
      rw [hdata, pfaGo, if_pos rfl, pfaGo_key look [] _ _ (noBrace_chars hk2)]
      show (match look (String.mk k.data) with
            | Option.none => Option.none
            | some v => (pfaGo look Option.none (renderT ps).data).map
                (fun r => v.data ++ r)).map String.mk =
        substT look (Piece.ref k :: ps)
      cases hlk : look (String.mk k.data) with
      | none =>
        have : look k = Option.none := hlk
        simp [substT, this]
      | some v =>
        have : look k = some v := hlk
        simp only [substT, this, Option.map_map, ← ih2, pyFormat, Option.map_map]
        rfl

/-- renderT distributes over piece-list concatenation. -/
theorem renderT_append (a b : List Piece) : renderT (a ++ b) = renderT a ++ renderT b := by
  induction a with
  | nil => simp [renderT]
  | cons p ps ih => cases p <;> simp [renderT, ih, String.append_assoc]

/-- substT distributes over piece-list concatenation. -/
theorem substT_append (look : String → Option String) (a b : List Piece) :
    substT look (a ++ b) =
      (substT look a).bind (fun x => (substT look b).map (fun y => x ++ y)) := by
  induction a with
  | nil =>
    cases hb : substT look b <;> simp [substT, String.empty_append, hb]
  | cons p ps ih =>
    cases p with
    | lit s =>
      rw [List.cons_append, substT, ih, substT]
      cases substT look ps <;> cases substT look b <;>
        simp [String.append_assoc]
    | ref k =>
      rw [List.cons_append, substT, substT]
      cases look k with
      | none => rfl
      | some v =>
        rw [ih]
        cases substT look ps <;> cases substT look b <;>
          simp [String.append_assoc]

/-- The creation_string of each kind is the template its piece list denotes. -/
theorem kindCS_renderT (f : FieldSpec) :
    kindCreationString f = (kindPieces f).map renderT := by
  cases hk : f.kind <;>
    simp only [kindCreationString, kindPieces, hk] <;>
    first
    | rfl
    | (split <;> first | rfl | (split <;> rfl))

/-- The spec-side DDL fragment of each kind is the substitution of its piece
list against the field attributes. -/
theorem specDdl_substT (f : FieldSpec) :
    specDdl f = (kindPieces f).bind (substT (fieldLookup f)) := by
  cases hk : f.kind <;>
    simp only [specDdl, kindPieces, hk] <;>
    first
    | simp [substT, fieldLookup, String.append_empty, String.append_assoc]
    | (split <;> (try split) <;>
        simp [substT, fieldLookup, String.append_empty, String.append_assoc])

/-- Whether one template piece is brace-free. -/
def pieceNoBrace : Piece → Bool
  | .lit s => noBrace s
  | .ref k => noBrace k

/-- Every piece of a kind template is brace-free. -/
theorem kindPieces_noBrace (f : FieldSpec) (ps : List Piece) (hp : kindPieces f = some ps) :
    ps.all pieceNoBrace = true := by
  cases hk : f.kind <;> simp only [kindPieces, hk] at hp
  case uuid4Field =>
    split at hp
    · injection hp with hp
      subst hp
      decide
    · split at hp
      · injection hp with hp
        subst hp
        decide
      · exact absurd hp (by simp)
  case manyToMany => exact absurd hp (by simp)
  all_goals
    injection hp with hp
  all_goals
    subst hp
  all_goals
    decide

/-- A brace-free piece list has brace-free literals. -/
theorem all_pieceNoBrace_lit {ps : List Piece} (h : ps.all pieceNoBrace = true) :
    ∀ s, Piece.lit s ∈ ps → noBrace s = true := by
  intro s hs
  have := List.all_eq_true.mp h _ hs
  simpa [pieceNoBrace] using this

/-- A brace-free piece list has brace-free field names. -/
theorem all_pieceNoBrace_ref {ps : List Piece} (h : ps.all pieceNoBrace = true) :
    ∀ k, Piece.ref k ∈ ps → noBrace k = true := by
  intro k hk2
  have := List.all_eq_true.mp h _ hk2
  simpa [pieceNoBrace] using this

set_option maxRecDepth 8000 in
/-- C6 counterexample: TimeField is not in DATE_FIELDS, so a Time field with
auto_now set and no explicit default gets no "DEFAULT now()" clause, contrary
to the claim for date/time kinds; and ManyToManyField.creation_query emits only
the two-column link-table DDL, with no column-name prefix and no
UNIQUE/NULL handling at all. -/
theorem creation_query_cex :
    creation_query er0 loads0 dumps0
      { kind := Kind.timeField, db_column := "t", auto_now := true } =
      some "t time NOT NULL" ∧
    creation_query er0 loads0 dumps0
      { kind := Kind.timeField, db_column := "t", auto_now := true } ≠
      some "t time DEFAULT now() NOT NULL" ∧
    ManyToManyField.creation_query
      { kind := Kind.manyToMany, db_column := "tags", own_model := "author",
        foreign_key := "book" } =
      some "\n        author INTEGER REFERENCES author NOT NULL,\n        book INTEGER REFERENCES book NOT NULL\n    " ∧
    ManyToManyField.creation_query
      { kind := Kind.manyToMany, db_column := "tags", own_model := "author",
        foreign_key := "book" } ≠
      some ("tags " ++ "\n        author INTEGER REFERENCES author NOT NULL,\n        book INTEGER REFERENCES book NOT NULL\n    " ++ " NOT NULL") := by
  refine ⟨rfl, by decide, rfl, by decide⟩

/-- C6 amended: for every single-column field kind (ManyToMany excluded — its
override emits only the link-table DDL), creation_query is the column name, a
space, the kind DDL fragment, the resolved default clause (callable invoked,
string single-quoted, bool rendered through str, anything else through
sanitize_data, whose FieldError aborts the query), " UNIQUE" exactly when
unique, and " NULL" / " NOT NULL"; the auto_now "DEFAULT now()" applies to Date
and DateTime kinds only, not Time.  The hypothesis restricts to default clauses
free of brace characters, which str.format would otherwise consume. -/
theorem creation_query_amended (er : String → Bool) (loads : String → Option PyVal)
    (dumps : PyVal → String) (f : FieldSpec)
    (hdc : ∀ s, defaultInsert er loads dumps f = some s → noBrace s = true) :
    creation_query er loads dumps f = creationQuerySpec er loads dumps f := by
  simp only [creation_query, creationQuerySpec]
  rw [kindCS_renderT f, specDdl_substT f]
  cases hp : kindPieces f with
  | none => rfl
  | some ps =>
    simp only [Option.map_some', Option.some_bind]
    cases hd : defaultInsert er loads dumps f with
    | none =>
      cases hsub : substT (fieldLookup f) ps <;> simp [hsub]
    | some dc =>
      simp only [Option.some_bind]
      have hAllPs := kindPieces_noBrace f ps hp
      have hU : noBrace (if f.unique then " UNIQUE" else "") = true := by
        cases f.unique <;> decide
      have hN : noBrace (if f.null then " NULL" else " NOT NULL") = true := by
        cases f.null <;> decide
      have hdcB : noBrace dc = true := hdc dc hd
      have htmpl : ("\x7bdb_column\x7d " ++ renderT ps ++ dc
          ++ (if f.unique then " UNIQUE" else "")
          ++ (if f.null then " NULL" else " NOT NULL")) =
          renderT (Piece.ref "db_column" :: Piece.lit " " ::
            (ps ++ [Piece.lit dc, Piece.lit (if f.unique then " UNIQUE" else ""),
              Piece.lit (if f.null then " NULL" else " NOT NULL")])) := by
        simp only [renderT, renderT_append]
        simp [String.append_assoc, String.append_empty]
        rw [show ("\x7bdb_column\x7d " : String) = "\x7bdb_column\x7d" ++ " " from rfl,
          String.append_assoc]
      have hfmt := pyFormat_renderT (fieldLookup f)
        (Piece.ref "db_column" :: Piece.lit " " ::
          (ps ++ [Piece.lit dc, Piece.lit (if f.unique then " UNIQUE" else ""),
            Piece.lit (if f.null then " NULL" else " NOT NULL")]))
        (by
          intro s hs
          simp only [List.mem_cons, List.mem_append] at hs
          rcases hs with h | h | h | h
          · exact absurd h (by simp)
          · rw [Piece.lit.injEq] at h
            subst h
            decide
          · exact all_pieceNoBrace_lit hAllPs s h
          · simp only [List.mem_cons, List.not_mem_nil, or_false] at h
            rcases h with h | h | h <;> rw [Piece.lit.injEq] at h <;> subst h
            · exact hdcB
            · exact hU
            · exact hN)
        (by
          intro k hk2
          simp only [List.mem_cons, List.mem_append] at hk2
          rcases hk2 with h | h | h | h
          · rw [Piece.ref.injEq] at h
            subst h
            decide
          · exact absurd h (by simp)
          · exact all_pieceNoBrace_ref hAllPs k h
          · simp at h)
      rw [htmpl, hfmt]
      have hdb : fieldLookup f "db_column" = some f.db_column := rfl
      simp only [substT, hdb, substT_append]
      cases hsub : substT (fieldLookup f) ps with
      | none => rfl
      | some ddl => simp [substT, String.append_assoc, String.append_empty]

/-- C6 witness: the amended theorem applied to a unique nullable Char field
with a plain string default. -/
theorem creation_query_amended_witness :
    creation_query er0 loads0 dumps0
      { kind := Kind.charField, db_column := "name", max_length := 30,
        default := some (.val (.str "x")), unique := true, null := true } =
    creationQuerySpec er0 loads0 dumps0
      { kind := Kind.charField, db_column := "name", max_length := 30,
        default := some (.val (.str "x")), unique := true, null := true } := by
  refine creation_query_amended er0 loads0 dumps0 _ ?_
  intro s hs
  have h2 : some (" DEFAULT \x27x\x27" : String) = some s := hs
  injection h2 with h2
  subst h2
  decide

end AsyncOrm
